import Mathlib

/-!
Verification of the mcuboot simulator TLV generator (`sim/src/tlv.rs`).

The TLV generator appends integrity metadata (a SHA-256 hash record and,
for the RSA-PSS scheme, a signature record) to a firmware image.  We embed
the Rust code shallowly: bytes are `Nat` values below 256 in `List Nat`,
machine words are `Nat` reduced modulo `2 ^ 32` where it matters, and the
fallible signing path returns `Option`.  SHA-256 is implemented in full so
that hash records can be computed and checked against FIPS 180-4 test
vectors.  The external `pem`/`ring` crates and the embedded key file
`root-rsa-2048.pem` are not part of `src/`; they are modelled abstractly
by an environment record.
-/

namespace Mcuboot

/-! ## SHA-256 (FIPS 180-4), over byte lists -/

/-- Reduce a natural number to a 32-bit word. -/
def w32 (x : Nat) : Nat := x % 4294967296

/-- Right rotation of a 32-bit word by `n` bits. -/
def rotr (n x : Nat) : Nat := w32 ((x >>> n) ||| (x <<< (32 - n)))

/-- Bitwise complement within 32 bits. -/
def not32 (x : Nat) : Nat := x ^^^ 4294967295

/-- SHA-256 choice function. -/
def ch (x y z : Nat) : Nat := (x &&& y) ^^^ (not32 x &&& z)

/-- SHA-256 majority function. -/
def maj (x y z : Nat) : Nat := (x &&& y) ^^^ (x &&& z) ^^^ (y &&& z)

/-- SHA-256 big sigma-0. -/
def bigSigma0 (x : Nat) : Nat := rotr 2 x ^^^ rotr 13 x ^^^ rotr 22 x

/-- SHA-256 big sigma-1. -/
def bigSigma1 (x : Nat) : Nat := rotr 6 x ^^^ rotr 11 x ^^^ rotr 25 x

/-- SHA-256 small sigma-0. -/
def smallSigma0 (x : Nat) : Nat := rotr 7 x ^^^ rotr 18 x ^^^ (x >>> 3)

/-- SHA-256 small sigma-1. -/
def smallSigma1 (x : Nat) : Nat := rotr 17 x ^^^ rotr 19 x ^^^ (x >>> 10)

/-- The 64 SHA-256 round constants. -/
def K256 : List Nat :=
  [1116352408, 1899447441, 3049323471, 3921009573, 961987163, 1508970993,
   2453635748, 2870763221, 3624381080, 310598401, 607225278, 1426881987,
   1925078388, 2162078206, 2614888103, 3248222580, 3835390401, 4022224774,
   264347078, 604807628, 770255983, 1249150122, 1555081692, 1996064986,
   2554220882, 2821834349, 2952996808, 3210313671, 3336571891, 3584528711,
   113926993, 338241895, 666307205, 773529912, 1294757372, 1396182291,
   1695183700, 1986661051, 2177026350, 2456956037, 2730485921, 2820302411,
   3259730800, 3345764771, 3516065817, 3600352804, 4094571909, 275423344,
   430227734, 506948616, 659060556, 883997877, 958139571, 1322822218,
   1537002063, 1747873779, 1955562222, 2024104815, 2227730452, 2361852424,
   2428436474, 2756734187, 3204031479, 3329325298]

/-- The eight 32-bit working variables of the SHA-256 state. -/
structure Hash8 where
  a : Nat
  b : Nat
  c : Nat
  d : Nat
  e : Nat
  f : Nat
  g : Nat
  h : Nat

/-- The SHA-256 initial hash value. -/
def initH : Hash8 :=
  ⟨1779033703, 3144134277, 1013904242, 2773480762, 1359893119, 2600822924, 528734635, 1541459225⟩

/-- One SHA-256 round, consuming a pair of round constant and schedule word. -/
def round (st : Hash8) (kw : Nat × Nat) : Hash8 :=
  let t1 := w32 (st.h + bigSigma1 st.e + ch st.e st.f st.g + kw.1 + kw.2)
  let t2 := w32 (bigSigma0 st.a + maj st.a st.b st.c)
  ⟨w32 (t1 + t2), st.a, st.b, st.c, w32 (st.d + t1), st.e, st.f, st.g⟩

/-- Extend a 16-word block to the 64-word message schedule. -/
def extendTo64 (ws : List Nat) : List Nat :=
  (List.range 48).foldl (fun acc _ =>
    let n := acc.length
    acc ++ [w32 (acc.getD (n - 16) 0 + smallSigma0 (acc.getD (n - 15) 0) +
                 acc.getD (n - 7) 0 + smallSigma1 (acc.getD (n - 2) 0))]) ws

/-- Compress one 16-word block into the running hash state. -/
def compress (h0 : Hash8) (block : List Nat) : Hash8 :=
  let ws := extendTo64 block
  let st := (K256.zip ws).foldl round h0
  ⟨w32 (h0.a + st.a), w32 (h0.b + st.b), w32 (h0.c + st.c), w32 (h0.d + st.d),
   w32 (h0.e + st.e), w32 (h0.f + st.f), w32 (h0.g + st.g), w32 (h0.h + st.h)⟩

/-- The eight bytes of a 64-bit length field, big-endian. -/
def beBytes8 (n : Nat) : List Nat :=
  [(n >>> 56) % 256, (n >>> 48) % 256, (n >>> 40) % 256, (n >>> 32) % 256,
   (n >>> 24) % 256, (n >>> 16) % 256, (n >>> 8) % 256, n % 256]

/-- SHA-256 padding: a 0x80 byte, zeros to 56 mod 64, then the bit length. -/
def padMessage (msg : List Nat) : List Nat :=
  msg ++ [128] ++ List.replicate ((119 - msg.length % 64) % 64) 0 ++ beBytes8 (8 * msg.length)

/-- Group bytes into big-endian 32-bit words. -/
def bytesToWords : List Nat → List Nat
  | a :: b :: c :: d :: rest => (a * 16777216 + b * 65536 + c * 256 + d) :: bytesToWords rest
  | _ => []

/-- Split a word list into chunks of 16 words; the fuel argument bounds the
recursion depth and is always sufficient at `ws.length`. -/
def chunks16Go : Nat → List Nat → List (List Nat)
  | 0, _ => []
  | _ + 1, [] => []
  | n + 1, w :: ws => (w :: ws).take 16 :: chunks16Go n ((w :: ws).drop 16)

/-- Split a word list into chunks of 16 words. -/
def chunks16 (ws : List Nat) : List (List Nat) :=
  chunks16Go ws.length ws

/-- The four bytes of a 32-bit word, big-endian. -/
def wordToBytes (w : Nat) : List Nat :=
  [(w >>> 24) % 256, (w >>> 16) % 256, (w >>> 8) % 256, w % 256]

/-- Serialize the final hash state as 32 digest bytes. -/
def Hash8.toBytes (st : Hash8) : List Nat :=
  wordToBytes st.a ++ wordToBytes st.b ++ wordToBytes st.c ++ wordToBytes st.d ++
  wordToBytes st.e ++ wordToBytes st.f ++ wordToBytes st.g ++ wordToBytes st.h

/-- SHA-256 of a byte list, as a 32-byte list. -/
def sha256 (msg : List Nat) : List Nat :=
  ((chunks16 (bytesToWords (padMessage msg))).foldl compress initH).toBytes

/-! ## The TLV generator (`TlvGen` in `sim/src/tlv.rs`) -/

/-- Header flag announcing position-independent code. -/
def FLAG_PIC : Nat := 0x000001

/-- Header flag announcing a SHA-256 hash record. -/
def FLAG_SHA256 : Nat := 0x000002

/-- Header flag announcing a PKCS#1.5 RSA-2048/SHA-256 signature. -/
def FLAG_PKCS15_RSA2048_SHA256 : Nat := 0x000004

/-- Header flag announcing an ECDSA-224/SHA-256 signature. -/
def FLAG_ECDSA224_SHA256 : Nat := 0x000008

/-- Header flag marking the image non-bootable. -/
def FLAG_NON_BOOTABLE : Nat := 0x000010

/-- Header flag announcing an ECDSA-256/SHA-256 signature. -/
def FLAG_ECDSA256_SHA256 : Nat := 0x000020

/-- Header flag announcing a PKCS1-PSS RSA-2048/SHA-256 signature. -/
def FLAG_PKCS1_PSS_RSA2048_SHA256 : Nat := 0x000040

/-- TLV record kinds, as in the `TlvKinds` enum of the source. -/
inductive TlvKinds where
  | SHA256
  | RSA2048
  | ECDSA224
  | ECDSA256
deriving DecidableEq, Repr

/-- The numeric tag of a record kind (`TlvKinds::X as u8`). -/
def TlvKinds.code : TlvKinds → Nat
  | .SHA256 => 1
  | .RSA2048 => 2
  | .ECDSA224 => 3
  | .ECDSA256 => 4

/-- Modelled from the spec: the external collaborators of `make_tlv` that are
not under `src/` — the `pem` crate parse of the embedded key file
`root-rsa-2048.pem` (`pemParse`: the tag and DER contents on success),
the `ring` key loading via `RSAKeyPair::from_der` plus
`RSASigningState::new` (`loadKey`: the public modulus length on success),
and the randomized `ring` RSA-PSS signing primitive (`sign`: DER key and
payload to signature contents, `none` on primitive failure). -/
structure RsaEnv where
  pemParse : Option (String × List Nat)
  loadKey : List Nat → Option Nat
  sign : List Nat → List Nat → Option (List Nat)

/-- Overwrite a buffer in place with the signer output, as the `ring`
`sign` call fills the caller-provided `signature` slice: the length of
the vector never changes. -/
def overwrite (buf content : List Nat) : List Nat :=
  content.take buf.length ++ buf.drop content.length

/-- The TLV generator state: header flags, the record kinds to emit, the
precomputed total size (a `u16` in the source; all values fit), and the
accumulated covered payload. -/
structure TlvGen where
  flags : Nat
  kinds : List TlvKinds
  size : Nat
  payload : List Nat

/-- Construct a generator that will only contain a hash of the data
(`TlvGen::new_hash_only`). -/
def TlvGen.new_hash_only : TlvGen :=
  { flags := FLAG_SHA256
    kinds := [TlvKinds.SHA256]
    size := 4 + 32
    payload := [] }

/-- Construct a generator for a hash plus an RSA-PSS signature
(`TlvGen::new_rsa_pss`). -/
def TlvGen.new_rsa_pss : TlvGen :=
  { flags := FLAG_SHA256 ||| FLAG_PKCS1_PSS_RSA2048_SHA256
    kinds := [TlvKinds.SHA256, TlvKinds.RSA2048]
    size := 4 + 32 + 4 + 256
    payload := [] }

/-- Retrieve the header flags for this configuration. -/
def TlvGen.get_flags (g : TlvGen) : Nat := g.flags

/-- Retrieve the size that the TLV will occupy. -/
def TlvGen.get_size (g : TlvGen) : Nat := g.size

/-- Add bytes to the covered hash (`TlvGen::add_bytes`). -/
def TlvGen.add_bytes (g : TlvGen) (bytes : List Nat) : TlvGen :=
  { g with payload := g.payload ++ bytes }

/-- Compute the TLV (`TlvGen::make_tlv`).  The hash branch guards the
source assertion `assert!(hash.len() == 32)`; the RSA branch threads each
`unwrap`/`assert` of the source as an `Option` failure: `pem::parse`,
the `"RSA PRIVATE KEY"` tag check, key loading, the
`assert_eq!(signature.len(), 256)` on the modulus-sized buffer, and the
signing call itself.  Any failure yields `none`: no bytes are returned. -/
def TlvGen.make_tlv (g : TlvGen) (env : RsaEnv) : Option (List Nat) :=
  let result : List Nat := []
  let step1 : Option (List Nat) :=
    if g.kinds.contains TlvKinds.SHA256 then
      let hash := sha256 g.payload
      if hash.length = 32 then
        some (result ++ TlvKinds.SHA256.code :: 0 :: 32 :: 0 :: hash)
      else
        none
    else
      some result
  match step1 with
  | none => none
  | some result1 =>
    if g.kinds.contains TlvKinds.RSA2048 then
      match env.pemParse with
      | none => none
      | some (tag, contents) =>
        if tag = "RSA PRIVATE KEY" then
          match env.loadKey contents with
          | none => none
          | some modulusLen =>
            let buf : List Nat := List.replicate modulusLen 0
            if buf.length = 256 then
              match env.sign contents g.payload with
              | none => none
              | some sigContent =>
                let signature := overwrite buf sigContent
                some (result1 ++ TlvKinds.RSA2048.code :: 0 ::
                  (signature.length &&& 0xFF) :: ((signature.length >>> 8) &&& 0xFF) :: signature)
            else
              none
        else
          none
    else
      some result1

/-- Error taxonomy of the spec; only `ConfigurationError` is observable at
resolve time. -/
inductive TlvError where
  | ConfigurationError
  | KeyLoadError
  | SigningError
deriving DecidableEq, Repr

/-- Modelled from the spec: the collaborator interface
`resolve(scheme) -> (flags, size)` with its unknown-scheme
`ConfigurationError` is described by the spec but absent from `src/` —
the source exposes only the static constructors `new_hash_only` and
`new_rsa_pss`, so the dynamic scheme selector is modelled as a string
naming the protection scheme, recognizing exactly the two supported
schemes and failing fast on anything else. -/
def resolve (scheme : String) : Except TlvError (Nat × Nat) :=
  if scheme = "hash-only" then
    Except.ok (TlvGen.new_hash_only.get_flags, TlvGen.new_hash_only.get_size)
  else if scheme = "hash+rsa-pss" then
    Except.ok (TlvGen.new_rsa_pss.get_flags, TlvGen.new_rsa_pss.get_size)
  else
    Except.error TlvError.ConfigurationError

/-- A TLV record in wire format: kind tag, reserved zero byte, 16-bit
little-endian payload length, then the raw payload. -/
def tlvRecord (kind : Nat) (payload : List Nat) : List Nat :=
  kind :: 0 :: (payload.length % 256) :: (payload.length / 256 % 256) :: payload

/-- A sample environment in which key loading and signing succeed, with a
2048-bit modulus and a fixed signer output. -/
def sampleEnv : RsaEnv :=
  { pemParse := some ("RSA PRIVATE KEY", [48, 130])
    loadKey := fun _ => some 256
    sign := fun _ _ => some (List.replicate 256 7) }

/-- An environment in which the PEM parse of the key file fails. -/
def failEnv : RsaEnv :=
  { pemParse := none
    loadKey := fun _ => none
    sign := fun _ _ => none }

/-! ## Basic lemmas -/

set_option maxRecDepth 8192

/-- The low byte of the 16-bit length 256. -/
theorem and255_of_256 : 256 &&& 255 = 0 := by decide

/-- The high byte of the 16-bit length 256. -/
theorem shift8_and255_of_256 : 256 >>> 8 &&& 255 = 1 := by decide

/-- The digest always has exactly 32 bytes. -/
theorem sha256_length (msg : List Nat) : (sha256 msg).length = 32 := by
  simp [sha256, Hash8.toBytes, wordToBytes]

/-- Overwriting a buffer in place preserves its length. -/
theorem overwrite_length (buf content : List Nat) :
    (overwrite buf content).length = buf.length := by
  simp [overwrite]
  omega

/-- Closed form of `make_tlv` for the hash-only configuration: it always
succeeds and emits the single hash record. -/
theorem make_tlv_hashOnly (env : RsaEnv) (p : List Nat) :
    (TlvGen.new_hash_only.add_bytes p).make_tlv env =
      some (1 :: 0 :: 32 :: 0 :: sha256 p) := by
  simp [TlvGen.make_tlv, TlvGen.new_hash_only, TlvGen.add_bytes, TlvKinds.code, sha256_length]

/-- Closed form of `make_tlv` for the RSA-PSS configuration when PEM
parsing, key loading and signing all succeed: the hash record followed by
the 256-byte signature record. -/
theorem make_tlv_rsa (env : RsaEnv) (p der sig : List Nat)
    (hpem : env.pemParse = some ("RSA PRIVATE KEY", der))
    (hkey : env.loadKey der = some 256)
    (hsig : env.sign der p = some sig) :
    (TlvGen.new_rsa_pss.add_bytes p).make_tlv env =
      some (1 :: 0 :: 32 :: 0 ::
        (sha256 p ++ 2 :: 0 :: 0 :: 1 :: overwrite (List.replicate 256 0) sig)) := by
  simp [TlvGen.make_tlv, TlvGen.new_rsa_pss, TlvGen.add_bytes, TlvKinds.code, sha256_length,
    hpem, hkey, hsig, overwrite_length, and255_of_256, shift8_and255_of_256]

/-- Taking the first 36 bytes of a hash record followed by anything
recovers the hash record. -/
theorem take36_hash (d rest : List Nat) (hd : d.length = 32) :
    (1 :: 0 :: 32 :: 0 :: (d ++ rest)).take 36 = 1 :: 0 :: 32 :: 0 :: d := by
  simp [List.take_succ_cons]
  rw [show (32 : Nat) = d.length from hd.symm, List.take_left]

/-- Any successful RSA-PSS finalization starts with the hash record over
the accumulated payload: its first 36 bytes are determined by the payload
alone. -/
theorem make_tlv_rsa_take36 (env : RsaEnv) (p out : List Nat)
    (h : (TlvGen.new_rsa_pss.add_bytes p).make_tlv env = some out) :
    out.take 36 = 1 :: 0 :: 32 :: 0 :: sha256 p := by
  rcases hpem : env.pemParse with _ | tagder
  · simp [TlvGen.make_tlv, TlvGen.new_rsa_pss, TlvGen.add_bytes, TlvKinds.code,
      sha256_length, hpem] at h
  · obtain ⟨tag, der⟩ := tagder
    by_cases htag : tag = "RSA PRIVATE KEY"
    · subst htag
      rcases hkey : env.loadKey der with _ | modulusLen
      · simp [TlvGen.make_tlv, TlvGen.new_rsa_pss, TlvGen.add_bytes, TlvKinds.code,
          sha256_length, hpem, hkey] at h
      · by_cases hmod : modulusLen = 256
        · subst hmod
          rcases hsig : env.sign der p with _ | sig
          · simp [TlvGen.make_tlv, TlvGen.new_rsa_pss, TlvGen.add_bytes, TlvKinds.code,
              sha256_length, hpem, hkey, hsig] at h
          · have heq := make_tlv_rsa env p der sig hpem hkey hsig
            rw [heq] at h
            obtain rfl : (1 :: 0 :: 32 :: 0 ::
                (sha256 p ++ 2 :: 0 :: 0 :: 1 :: overwrite (List.replicate 256 0) sig)) = out :=
              Option.some.inj h
            exact take36_hash _ _ (sha256_length p)
        · simp [TlvGen.make_tlv, TlvGen.new_rsa_pss, TlvGen.add_bytes, TlvKinds.code,
            sha256_length, hpem, hkey, hmod] at h
    · simp [TlvGen.make_tlv, TlvGen.new_rsa_pss, TlvGen.add_bytes, TlvKinds.code,
        sha256_length, hpem, htag] at h

/-! ## Claims -/

/-- C1: for every supported scheme and every appended content, the size
reported at construction by `get_size` equals the exact byte length of
the vector returned by `make_tlv` (for the RSA-PSS scheme, whenever key
loading and signing succeed); in particular `get_size` is 36 for the
hash-only scheme and 296 for the RSA-PSS scheme. -/
theorem c1_get_size_eq_output_length (env : RsaEnv) (content der sig : List Nat)
    (hpem : env.pemParse = some ("RSA PRIVATE KEY", der))
    (hkey : env.loadKey der = some 256)
    (hsig : env.sign der content = some sig) :
    (∃ out, (TlvGen.new_hash_only.add_bytes content).make_tlv env = some out ∧
      out.length = TlvGen.new_hash_only.get_size) ∧
    (∃ out, (TlvGen.new_rsa_pss.add_bytes content).make_tlv env = some out ∧
      out.length = TlvGen.new_rsa_pss.get_size) ∧
    TlvGen.new_hash_only.get_size = 36 ∧
    TlvGen.new_rsa_pss.get_size = 296 := by
  refine ⟨⟨_, make_tlv_hashOnly env content, ?_⟩,
          ⟨_, make_tlv_rsa env content der sig hpem hkey hsig, ?_⟩, rfl, rfl⟩
  · simp [sha256_length, TlvGen.new_hash_only, TlvGen.get_size]
  · simp [sha256_length, overwrite_length, TlvGen.new_rsa_pss, TlvGen.get_size]

/-- Witness for C1 at a concrete environment and concrete content. -/
theorem c1_witness :
    TlvGen.new_hash_only.get_size = 36 ∧ TlvGen.new_rsa_pss.get_size = 296 :=
  ⟨(c1_get_size_eq_output_length sampleEnv [97, 98, 99] [48, 130]
      (List.replicate 256 7) rfl rfl rfl).2.2.1,
   (c1_get_size_eq_output_length sampleEnv [97, 98, 99] [48, 130]
      (List.replicate 256 7) rfl rfl rfl).2.2.2⟩

/-- C2: the 32 payload bytes of the emitted hash record (bytes 4..36 of
the output) equal the SHA-256 digest of exactly the accumulated bytes;
for content "abc" the output is 36 bytes, its first byte is the SHA256
tag 1, and bytes 4..36 are the SHA-256 digest of "abc". -/
theorem c2_hash_record_is_sha256 (env : RsaEnv) (content : List Nat) :
    (∃ out, (TlvGen.new_hash_only.add_bytes content).make_tlv env = some out ∧
      out.length = 36 ∧ out.getD 0 0 = 1 ∧ out.drop 4 = sha256 content) ∧
    (TlvGen.new_hash_only.add_bytes [97, 98, 99]).make_tlv env =
      some (1 :: 0 :: 32 :: 0 ::
        [0xba, 0x78, 0x16, 0xbf, 0x8f, 0x01, 0xcf, 0xea, 0x41, 0x41, 0x40, 0xde,
         0x5d, 0xae, 0x22, 0x23, 0xb0, 0x03, 0x61, 0xa3, 0x96, 0x17, 0x7a, 0x9c,
         0xb4, 0x10, 0xff, 0x61, 0xf2, 0x00, 0x15, 0xad]) := by
  constructor
  · exact ⟨_, make_tlv_hashOnly env content, by simp [sha256_length], rfl, rfl⟩
  · rw [make_tlv_hashOnly]
    have habc : sha256 [97, 98, 99] =
        [0xba, 0x78, 0x16, 0xbf, 0x8f, 0x01, 0xcf, 0xea, 0x41, 0x41, 0x40, 0xde,
         0x5d, 0xae, 0x22, 0x23, 0xb0, 0x03, 0x61, 0xa3, 0x96, 0x17, 0x7a, 0x9c,
         0xb4, 0x10, 0xff, 0x61, 0xf2, 0x00, 0x15, 0xad] := by decide
    rw [habc]

/-- C3: when a signature record is configured, `make_tlv` propagates every
failure — PEM parse failure, a wrong PEM tag, key-load failure, or a
signing-primitive failure — and on any such failure no partial or corrupt
TLV bytes are returned: the result is `none`. -/
theorem c3_signing_failures_propagate (env : RsaEnv) (content der : List Nat) :
    (env.pemParse = none →
      (TlvGen.new_rsa_pss.add_bytes content).make_tlv env = none) ∧
    (∀ tag contents, env.pemParse = some (tag, contents) → tag ≠ "RSA PRIVATE KEY" →
      (TlvGen.new_rsa_pss.add_bytes content).make_tlv env = none) ∧
    (env.pemParse = some ("RSA PRIVATE KEY", der) → env.loadKey der = none →
      (TlvGen.new_rsa_pss.add_bytes content).make_tlv env = none) ∧
    (env.pemParse = some ("RSA PRIVATE KEY", der) → env.loadKey der = some 256 →
      env.sign der content = none →
      (TlvGen.new_rsa_pss.add_bytes content).make_tlv env = none) := by
  refine ⟨?_, ?_, ?_, ?_⟩
  · intro hpem
    simp [TlvGen.make_tlv, TlvGen.new_rsa_pss, TlvGen.add_bytes, TlvKinds.code,
      sha256_length, hpem]
  · intro tag contents hpem htag
    simp [TlvGen.make_tlv, TlvGen.new_rsa_pss, TlvGen.add_bytes, TlvKinds.code,
      sha256_length, hpem, htag]
  · intro hpem hkey
    simp [TlvGen.make_tlv, TlvGen.new_rsa_pss, TlvGen.add_bytes, TlvKinds.code,
      sha256_length, hpem, hkey]
  · intro hpem hkey hsig
    simp [TlvGen.make_tlv, TlvGen.new_rsa_pss, TlvGen.add_bytes, TlvKinds.code,
      sha256_length, hpem, hkey, hsig]

/-- Witness for C3: with a failing PEM parse the build returns nothing. -/
theorem c3_witness :
    (TlvGen.new_rsa_pss.add_bytes [1, 2, 3]).make_tlv failEnv = none :=
  (c3_signing_failures_propagate failEnv [1, 2, 3] []).1 rfl

/-- C4: resolving an unrecognized scheme identifier fails with
`ConfigurationError` at resolve time and yields no flags/size pair. -/
theorem c4_resolve_unknown_scheme (scheme : String)
    (h1 : scheme ≠ "hash-only") (h2 : scheme ≠ "hash+rsa-pss") :
    resolve scheme = Except.error TlvError.ConfigurationError ∧
    ∀ fs : Nat × Nat, resolve scheme ≠ Except.ok fs := by
  constructor
  · simp [resolve, h1, h2]
  · intro fs
    simp [resolve, h1, h2]

/-- Witness for C4 at a concrete unrecognized scheme identifier. -/
theorem c4_witness :
    resolve "ecdsa-zzz" = Except.error TlvError.ConfigurationError :=
  (c4_resolve_unknown_scheme "ecdsa-zzz" (by decide) (by decide)).1

/-- C5: record order is deterministic and fixed by the scheme — the hash
record always precedes the signature record, and the same scheme always
emits its records in the same order for any accumulated content. -/
theorem c5_record_order_fixed (env : RsaEnv) (content der sig : List Nat)
    (hpem : env.pemParse = some ("RSA PRIVATE KEY", der))
    (hkey : env.loadKey der = some 256)
    (hsig : env.sign der content = some sig) :
    (TlvGen.new_hash_only.add_bytes content).make_tlv env =
      some (1 :: 0 :: 32 :: 0 :: sha256 content) ∧
    (TlvGen.new_rsa_pss.add_bytes content).make_tlv env =
      some (1 :: 0 :: 32 :: 0 ::
        (sha256 content ++ 2 :: 0 :: 0 :: 1 :: overwrite (List.replicate 256 0) sig)) ∧
    TlvGen.new_hash_only.kinds = [TlvKinds.SHA256] ∧
    TlvGen.new_rsa_pss.kinds = [TlvKinds.SHA256, TlvKinds.RSA2048] :=
  ⟨make_tlv_hashOnly env content, make_tlv_rsa env content der sig hpem hkey hsig,
   rfl, rfl⟩

/-- Witness for C5 at a concrete environment and concrete content. -/
theorem c5_witness :
    (TlvGen.new_hash_only.add_bytes [10, 20]).make_tlv sampleEnv =
      some (1 :: 0 :: 32 :: 0 :: sha256 [10, 20]) :=
  (c5_record_order_fixed sampleEnv [10, 20] [48, 130]
    (List.replicate 256 7) rfl rfl rfl).1

/-- C6: every emitted record follows the TLV wire format with no padding
between records: a kind tag (SHA256 = 1, RSA2048 = 2), a reserved zero
byte, a 16-bit little-endian length equal to the actual payload byte
count (32 for the hash record, 256 for the signature record), then the
raw payload bytes. -/
theorem c6_wire_format (env : RsaEnv) (content der sig : List Nat)
    (hpem : env.pemParse = some ("RSA PRIVATE KEY", der))
    (hkey : env.loadKey der = some 256)
    (hsig : env.sign der content = some sig) :
    (TlvGen.new_hash_only.add_bytes content).make_tlv env =
      some (tlvRecord TlvKinds.SHA256.code (sha256 content)) ∧
    (∃ s, s.length = 256 ∧
      (TlvGen.new_rsa_pss.add_bytes content).make_tlv env =
        some (tlvRecord TlvKinds.SHA256.code (sha256 content) ++
              tlvRecord TlvKinds.RSA2048.code s)) ∧
    (sha256 content).length = 32 ∧
    TlvKinds.SHA256.code = 1 ∧ TlvKinds.RSA2048.code = 2 ∧
    TlvKinds.ECDSA224.code = 3 ∧ TlvKinds.ECDSA256.code = 4 ∧
    (∀ kind p, p.length < 65536 →
      (tlvRecord kind p).getD 1 0 = 0 ∧
      (tlvRecord kind p).getD 2 0 + 256 * (tlvRecord kind p).getD 3 0 = p.length ∧
      (tlvRecord kind p).drop 4 = p ∧
      (tlvRecord kind p).length = 4 + p.length) := by
  refine ⟨?_, ⟨overwrite (List.replicate 256 0) sig, ?_, ?_⟩,
    sha256_length content, rfl, rfl, rfl, rfl, ?_⟩
  · rw [make_tlv_hashOnly]
    simp [tlvRecord, sha256_length, TlvKinds.code]
  · simp [overwrite_length]
  · rw [make_tlv_rsa env content der sig hpem hkey hsig]
    simp [tlvRecord, sha256_length, overwrite_length, TlvKinds.code]
  · intro kind p hp
    refine ⟨rfl, ?_, rfl, by simp [tlvRecord]; omega⟩
    simp [tlvRecord]
    omega

/-- Witness for C6 at a concrete environment and concrete content. -/
theorem c6_witness :
    (TlvGen.new_hash_only.add_bytes [5]).make_tlv sampleEnv =
      some (tlvRecord TlvKinds.SHA256.code (sha256 [5])) :=
  (c6_wire_format sampleEnv [5] [48, 130] (List.replicate 256 7) rfl rfl rfl).1

/-- C7: the header flags set exactly one bit per protection feature at the
fixed contract positions — PIC bit 0, SHA-256 bit 1, PKCS#1.5 RSA2048
bit 2, ECDSA224 bit 3, non-bootable bit 4, ECDSA256 bit 5, PKCS1-PSS
RSA2048 bit 6 — and the hash-only scheme announces exactly 0x02 while the
RSA-PSS scheme announces 0x42. -/
theorem c7_header_flags :
    FLAG_PIC = 1 ∧ FLAG_SHA256 = 2 ∧ FLAG_PKCS15_RSA2048_SHA256 = 4 ∧
    FLAG_ECDSA224_SHA256 = 8 ∧ FLAG_NON_BOOTABLE = 16 ∧
    FLAG_ECDSA256_SHA256 = 32 ∧ FLAG_PKCS1_PSS_RSA2048_SHA256 = 64 ∧
    TlvGen.new_hash_only.get_flags = 0x02 ∧
    TlvGen.new_rsa_pss.get_flags = 0x42 := by
  decide

/-- C8: with zero-length accumulated content (no appended bytes, or an
empty slice) the hash-only `make_tlv` still succeeds, the digest-length
assertion never fires, and the record carries the SHA-256 digest of the
empty input. -/
theorem c8_empty_content (env : RsaEnv) :
    TlvGen.new_hash_only.make_tlv env = some (1 :: 0 :: 32 :: 0 :: sha256 []) ∧
    (TlvGen.new_hash_only.add_bytes []).make_tlv env =
      TlvGen.new_hash_only.make_tlv env ∧
    sha256 [] =
      [0xe3, 0xb0, 0xc4, 0x42, 0x98, 0xfc, 0x1c, 0x14, 0x9a, 0xfb, 0xf4, 0xc8,
       0x99, 0x6f, 0xb9, 0x24, 0x27, 0xae, 0x41, 0xe4, 0x64, 0x9b, 0x93, 0x4c,
       0xa4, 0x95, 0x99, 0x1b, 0x78, 0x52, 0xb8, 0x55] ∧
    (sha256 []).length = 32 := by
  have hadd : TlvGen.new_hash_only.add_bytes [] = TlvGen.new_hash_only := by
    simp [TlvGen.add_bytes, TlvGen.new_hash_only]
  refine ⟨?_, by rw [hadd], by decide, sha256_length []⟩
  rw [← hadd]
  exact make_tlv_hashOnly env []

/-- C9: finalizing two instances of the same scheme with byte-for-byte
identical accumulated content yields identical hash records — for the
hash-only scheme the whole output agrees across any two environments, and
for the RSA-PSS scheme the 36-byte hash portion of any two successful
outputs agrees. -/
theorem c9_hash_deterministic (env1 env2 : RsaEnv) (p1 p2 : List Nat)
    (h : p1 = p2) :
    (TlvGen.new_hash_only.add_bytes p1).make_tlv env1 =
      (TlvGen.new_hash_only.add_bytes p2).make_tlv env2 ∧
    ∀ out1 out2,
      (TlvGen.new_rsa_pss.add_bytes p1).make_tlv env1 = some out1 →
      (TlvGen.new_rsa_pss.add_bytes p2).make_tlv env2 = some out2 →
      out1.take 36 = out2.take 36 := by
  subst h
  refine ⟨by rw [make_tlv_hashOnly, make_tlv_hashOnly], ?_⟩
  intro out1 out2 h1 h2
  rw [make_tlv_rsa_take36 env1 p1 out1 h1, make_tlv_rsa_take36 env2 p1 out2 h2]

/-- Witness for C9 at concrete environments and concrete content. -/
theorem c9_witness :
    (TlvGen.new_hash_only.add_bytes [97]).make_tlv sampleEnv =
      (TlvGen.new_hash_only.add_bytes [97]).make_tlv failEnv :=
  (c9_hash_deterministic sampleEnv failEnv [97] [97] rfl).1

/-- C10: `add_bytes` only appends the given bytes to the accumulated
payload — flags, record kinds and the precomputed size are untouched,
`get_flags` and `get_size` are unchanged, and appending two slices in
order equals appending their concatenation. -/
theorem c10_add_bytes_frame (g : TlvGen) (a b : List Nat) :
    (g.add_bytes a).flags = g.flags ∧
    (g.add_bytes a).kinds = g.kinds ∧
    (g.add_bytes a).size = g.size ∧
    (g.add_bytes a).get_flags = g.get_flags ∧
    (g.add_bytes a).get_size = g.get_size ∧
    (g.add_bytes a).payload = g.payload ++ a ∧
    (g.add_bytes a).add_bytes b = g.add_bytes (a ++ b) := by
  simp [TlvGen.add_bytes, TlvGen.get_flags, TlvGen.get_size]

end Mcuboot
